import Mathlib

/-!
Verification of the order-encoding and reconciliation core of the Nado
trading module (`nado_trading_module.py`).

The embedding below translates the pure computational content of the
`NadoTrader` class into Lean:

* `to_x18` / `from_x18` model the fixed-point codec used on the wire
  (the SDK helpers `nado_protocol.utils.math.to_x18 / from_x18`, which
  are an external collaborator; modelled from the spec: multiply /
  divide by `10 ^ 18`).
* `encodeAppendix` is the inline appendix-packing expression of
  `_place_limit_order` (lines 389-395 of the source).
* `orderTypeOf` and `expirationOf` are the order-type and expiration
  derivations of `_place_limit_order` (lines 376-383 and 398-401).
* `place_limit_order_request` builds the `PlaceOrderParams` value that
  `_place_limit_order` hands to `client.market.place_order`;
  `place_limit_order_attempt` additionally models the
  `_ensure_connected` guard (`none` models the `RuntimeError` raised
  when not connected).
* `buy_limit_request` / `sell_limit_request` model `buy_limit` and
  `sell_limit`, which forward to `_place_limit_order` with `abs(size)`.
* `place_order_update` models the mutation of the `_pending_orders`
  dict performed by `_place_limit_order`'s try/except block
  (lines 425-466): the dict is modelled as an association list with
  first-match lookup, `Except` models the raised/normal outcome of the
  collaborator call.
* `get_open_orders` models `NadoTrader.get_open_orders`
  (lines 610-681): the method has the pending dict in scope through
  `self`, which the embedding makes explicit as a parameter, and it
  builds its result purely from the engine's order list.
* `unrealizedPnlOf` models the per-balance PnL computation inside
  `get_account_info` (lines 215-256), including the Python truthiness
  test `if current_price:` and the perp-product membership guard.
-/

/-- Fixed-point encoder. Modelled from the spec: the collaborator
`nado_protocol.utils.math.to_x18` (not in the repository) multiplies a
decimal by `10 ^ 18`; the integer part is kept. -/
def to_x18 (x : ℚ) : ℤ :=
  ⌊x * 10 ^ 18⌋

/-- Fixed-point decoder. Modelled from the spec: the collaborator
`nado_protocol.utils.math.from_x18` divides by `10 ^ 18`. -/
def from_x18 (z : ℤ) : ℚ :=
  (z : ℚ) / 10 ^ 18

/-- Order side enum (`OrderSide` in the source). -/
inductive OrderSide where
  | BUY
  | SELL
deriving DecidableEq, Repr

/-- The `.value` attribute of the Python enum. -/
def OrderSide.value : OrderSide → String
  | .BUY => "buy"
  | .SELL => "sell"

/-- Wire order fields, mirroring the SDK `OrderParams` object as the
source constructs it (lines 409-416): sender, price, signed amount,
expiration, nonce (always `None` in the source) and packed appendix.
There is no side field. -/
structure OrderParams where
  sender : String
  priceX18 : ℤ
  amount : ℤ
  expiration : ℤ
  nonce : Option ℤ
  appendix : ℕ
deriving DecidableEq, Repr

/-- The SDK `PlaceOrderParams` object (lines 419-422). -/
structure PlaceOrderParams where
  product_id : ℤ
  order : OrderParams
deriving DecidableEq, Repr

/-- The appendix-packing expression of `_place_limit_order`
(lines 389-395): `version | (isolated << 8) | (order_type << 9) |
(reduce_only_bit << 11) | (trigger_type << 12)`. -/
def encodeAppendix (version isolated order_type reduce_only_bit trigger_type : ℕ) : ℕ :=
  version ||| (isolated <<< 8) ||| (order_type <<< 9) |||
    (reduce_only_bit <<< 11) ||| (trigger_type <<< 12)

/-- Order-type derivation of `_place_limit_order` (lines 376-383):
post-only forces 3, otherwise IOC gives 1, FOK gives 2, anything else
(in particular GTC) gives 0. -/
def orderTypeOf (post_only : Bool) (time_in_force : String) : ℕ :=
  if post_only then 3
  else if time_in_force = "IOC" then 1
  else if time_in_force = "FOK" then 2
  else 0

/-- Expiration derivation of `_place_limit_order` (lines 398-401),
with `t` standing for `int(time.time())` at submission. -/
def expirationOf (time_in_force : String) (t : ℤ) : ℤ :=
  if time_in_force = "GTC" then t + 30 * 24 * 60 * 60 else t + 300

/-- The `PlaceOrderParams` value `_place_limit_order` builds and hands
to `client.market.place_order` (lines 355-422). `t` is the submission
time `int(time.time())`; `sender` is the subaccount hex derived by the
SDK. -/
def place_limit_order_request (t : ℤ) (sender : String) (product_id : ℤ)
    (price size : ℚ) (side : OrderSide) (reduce_only post_only : Bool)
    (time_in_force : String) : PlaceOrderParams :=
  { product_id := product_id
    order :=
      { sender := sender
        priceX18 := to_x18 price
        amount := if side = OrderSide.BUY then to_x18 size else to_x18 (-size)
        expiration := expirationOf time_in_force t
        nonce := none
        appendix :=
          encodeAppendix 1 0 (orderTypeOf post_only time_in_force)
            (if reduce_only then 1 else 0) 0 } }

/-- `_place_limit_order` including the `_ensure_connected` guard
(line 355): when the client is not connected a `RuntimeError` is raised
before anything is built (`none`); otherwise the request is built and
the collaborator call `client.market.place_order` is attempted with it
(`some`). No other early exit exists in the source. -/
def place_limit_order_attempt (connected : Bool) (t : ℤ) (sender : String)
    (product_id : ℤ) (price size : ℚ) (side : OrderSide)
    (reduce_only post_only : Bool) (time_in_force : String) :
    Option PlaceOrderParams :=
  if connected then
    some (place_limit_order_request t sender product_id price size side
      reduce_only post_only time_in_force)
  else none

/-- `buy_limit` (lines 264-295): forwards to `_place_limit_order` with
`size=abs(size)` and `side=OrderSide.BUY`. -/
def buy_limit_request (t : ℤ) (sender : String) (product_id : ℤ)
    (price size : ℚ) (reduce_only post_only : Bool)
    (time_in_force : String) : PlaceOrderParams :=
  place_limit_order_request t sender product_id price |size| OrderSide.BUY
    reduce_only post_only time_in_force

/-- `sell_limit` (lines 297-328): forwards to `_place_limit_order` with
`size=abs(size)` and `side=OrderSide.SELL`. -/
def sell_limit_request (t : ℤ) (sender : String) (product_id : ℤ)
    (price size : ℚ) (reduce_only post_only : Bool)
    (time_in_force : String) : PlaceOrderParams :=
  place_limit_order_request t sender product_id price |size| OrderSide.SELL
    reduce_only post_only time_in_force

/-- A locally tracked pending order, the value stored in
`self._pending_orders[digest]` (lines 443-452). `localFlag` models the
`local` key (a Lean keyword). -/
structure PendingOrder where
  digest : String
  product_id : ℤ
  price : ℚ
  amount : ℚ
  filled : ℚ
  side : String
  timestamp : ℚ
  localFlag : Bool
deriving DecidableEq, Repr

/-- The `_pending_orders` Python dict, modelled as an association list
with first-match lookup. -/
def lookupPending : List (String × PendingOrder) → String → Option PendingOrder
  | [], _ => none
  | (k, v) :: rest, d => if k = d then some v else lookupPending rest d

/-- Removal of a key from the association list (dict keys are unique,
so binding a key drops any previous binding of it). -/
def erasePending : List (String × PendingOrder) → String → List (String × PendingOrder)
  | [], _ => []
  | (k, v) :: rest, d =>
      if k = d then erasePending rest d else (k, v) :: erasePending rest d

/-- Dict assignment `self._pending_orders[digest] = ...`: the key is
bound to the new value, every other key keeps its value. -/
def insertPending (m : List (String × PendingOrder)) (d : String)
    (v : PendingOrder) : List (String × PendingOrder) :=
  (d, v) :: erasePending m d

/-- The `.data` part of the collaborator's place-order response
(only the digest is read, line 429). -/
structure PlaceResultData where
  digest : String
deriving DecidableEq, Repr

/-- The collaborator's place-order response object (`result` at
line 426): `data` may be absent, `status` is read into the returned
order info. -/
structure PlaceResult where
  data : Option PlaceResultData
  status : String
deriving DecidableEq, Repr

/-- Digest extraction of line 429:
`result.data.digest if result.data else 'unknown'`. -/
def responseDigest (r : PlaceResult) : String :=
  match r.data with
  | some d => d.digest
  | none => "unknown"

/-- The pending record built at lines 443-452; `tNow` stands for
`time.time()`. -/
def pendingRecordOf (product_id : ℤ) (price size : ℚ) (side : OrderSide)
    (tNow : ℚ) (digest : String) : PendingOrder :=
  { digest := digest
    product_id := product_id
    price := price
    amount := if side = OrderSide.BUY then size else -size
    filled := 0
    side := side.value
    timestamp := tNow
    localFlag := true }

/-- The effect of `_place_limit_order`'s try/except block
(lines 425-466) on the `_pending_orders` dict. `resp` is the outcome of
the collaborator call `client.market.place_order`: `Except.error`
models a raised exception, in which case the except-branch returns an
error dict and the cache is untouched; `Except.ok` models a normal
return, after which the pending record is stored under the response
digest. -/
def place_order_update (pending : List (String × PendingOrder))
    (resp : Except String PlaceResult) (product_id : ℤ) (price size : ℚ)
    (side : OrderSide) (tNow : ℚ) : List (String × PendingOrder) :=
  match resp with
  | .error _ => pending
  | .ok r =>
      insertPending pending (responseDigest r)
        (pendingRecordOf product_id price size side tNow (responseDigest r))

/-- An open-order record as returned by the engine query
(`get_subaccount_open_orders`, lines 627-650); optional fields model
the `hasattr` probing at lines 671-674. -/
structure EngineOrder where
  digest : String
  product_id : ℤ
  priceX18 : ℤ
  amount : ℤ
  unfilled_amount : Option ℤ
  placed_at : Option ℤ
  expiration : Option ℤ
deriving DecidableEq, Repr

/-- The per-order dict appended to `open_orders` (lines 655-675). -/
structure OpenOrderView where
  digest : String
  product_id : ℤ
  price : ℚ
  amount : ℚ
  unfilled_amount : ℚ
  side : String
  placed_at : Option ℤ
  expiration : Option ℤ
deriving DecidableEq, Repr

/-- Translation of one engine order into the returned dict
(lines 655-675). -/
def parseEngineOrder (o : EngineOrder) : OpenOrderView :=
  { digest := o.digest
    product_id := o.product_id
    price := from_x18 o.priceX18
    amount := from_x18 o.amount
    unfilled_amount :=
      match o.unfilled_amount with
      | some u => from_x18 u
      | none => |from_x18 o.amount|
    side := if from_x18 o.amount > 0 then "buy" else "sell"
    placed_at := o.placed_at
    expiration := o.expiration }

/-- `NadoTrader.get_open_orders` (lines 610-681). The pending dict is
in scope through `self` and is made an explicit parameter here; the
method builds its result purely from the engine's `orders_list` and
never reads `self._pending_orders`. -/
def get_open_orders (pending : List (String × PendingOrder))
    (orders_list : List EngineOrder) : List OpenOrderView :=
  orders_list.map parseEngineOrder

/-- A cached perpetual product as used by the PnL computation
(lines 222-232): `riskPriceX18` models the optional
`product_risk.risk.price_x18` attribute, `oraclePriceX18` the optional
`oracle_price_x18` attribute. -/
structure PerpProduct where
  product_id : ℤ
  riskPriceX18 : Option ℤ
  oraclePriceX18 : Option ℤ
deriving DecidableEq, Repr

/-- A subaccount balance entry as used by the PnL computation
(lines 217-235): the raw x18 position amount and the raw x18
`v_quote_balance`. -/
structure Balance where
  product_id : ℤ
  amountX18 : ℤ
  vQuoteX18 : ℤ
deriving DecidableEq, Repr

/-- Line 218: `from_x18(int(b.balance.amount)) if b.balance.amount
!= '0' else 0`. -/
def balanceAmount (b : Balance) : ℚ :=
  if b.amountX18 ≠ 0 then from_x18 b.amountX18 else 0

/-- Price resolution of lines 225-232: look the product up in the perp
cache, take `risk.price_x18` when present, else `oracle_price_x18`
when present, else no price. -/
def currentPriceOf (perp : List PerpProduct) (product_id : ℤ) : Option ℚ :=
  match perp.find? (fun p => p.product_id = product_id) with
  | none => none
  | some p =>
      match p.riskPriceX18 with
      | some r => some (from_x18 r)
      | none =>
          match p.oraclePriceX18 with
          | some o => some (from_x18 o)
          | none => none

/-- The unrealized-PnL computation of `get_account_info`
(lines 218-250): `0` unless the amount is nonzero, the product is a
cached perpetual, and the resolved price is truthy (`if
current_price:` in Python is false for both `None` and `0`); in the
remaining case both branches of the debug conditional compute
`amount * current_price + v_quote`. -/
def unrealizedPnlOf (perp : List PerpProduct) (b : Balance) : ℚ :=
  if balanceAmount b ≠ 0 ∧ b.product_id ∈ perp.map (·.product_id) then
    match currentPriceOf perp b.product_id with
    | some p => if p ≠ 0 then balanceAmount b * p + from_x18 b.vQuoteX18 else 0
    | none => 0
  else 0

/-- Bitwise-or with a shifted value is addition when the low part fits
below the shift. -/
theorem lor_shift_add (n a m : ℕ) {b : ℕ} (hm : 2 ^ n = m) (hb : b < m) :
    b ||| a <<< n = b + m * a := by
  subst hm
  calc b ||| a <<< n = 2 ^ n * a ||| b := by
        rw [Nat.lor_comm, Nat.shiftLeft_eq, Nat.mul_comm]
    _ = 2 ^ n * a + b := (Nat.mul_add_lt_is_or hb a).symm
    _ = b + 2 ^ n * a := Nat.add_comm _ _

/-- In-range appendix fields occupy disjoint bit ranges, so the packing
expression is a plain sum of shifted fields. -/
theorem encodeAppendix_eq_sum (v i o r t : ℕ) (hv : v < 256) (hi : i < 2)
    (ho : o < 4) (hr : r < 2) (ht : t < 4) :
    encodeAppendix v i o r t = v + 256 * i + 512 * o + 2048 * r + 4096 * t := by
  unfold encodeAppendix
  rw [lor_shift_add 8 i 256 (by norm_num) hv,
      lor_shift_add 9 o 512 (by norm_num) (show v + 256 * i < 512 by omega),
      lor_shift_add 11 r 2048 (by norm_num)
        (show v + 256 * i + 512 * o < 2048 by omega),
      lor_shift_add 12 t 4096 (by norm_num)
        (show v + 256 * i + 512 * o + 2048 * r < 4096 by omega)]

/-- The order-type code is always one of 0..3. -/
theorem orderTypeOf_lt (post_only : Bool) (tif : String) :
    orderTypeOf post_only tif < 4 := by
  unfold orderTypeOf
  repeat' split
  all_goals omega

/-- The reduce-only bit is 0 or 1. -/
theorem reduceOnlyBit_lt (ro : Bool) : (if ro then 1 else 0 : ℕ) < 2 := by
  split <;> omega

/-- C5: for in-range field values, the packed appendix places version
in bits 0..7, isolated in bit 8, orderType in bits 9..10, reduceOnly
in bit 11, triggerType in bits 12..13, and every higher bit is zero. -/
theorem appendix_bit_layout (v i o r t : ℕ) (hv : v < 256) (hi : i < 2)
    (ho : o < 4) (hr : r < 2) (ht : t < 4) :
    encodeAppendix v i o r t % 256 = v ∧
    encodeAppendix v i o r t / 256 % 2 = i ∧
    encodeAppendix v i o r t / 512 % 4 = o ∧
    encodeAppendix v i o r t / 2048 % 2 = r ∧
    encodeAppendix v i o r t / 4096 % 4 = t ∧
    encodeAppendix v i o r t / 16384 = 0 := by
  rw [encodeAppendix_eq_sum v i o r t hv hi ho hr ht]
  omega

/-- Witness for C5 at version 1, isolated 1, orderType 2, reduceOnly 1,
triggerType 3. -/
theorem appendix_bit_layout_witness :
    (1 : ℕ) < 256 ∧ (1 : ℕ) < 2 ∧ (2 : ℕ) < 4 ∧ (1 : ℕ) < 2 ∧ (3 : ℕ) < 4 ∧
    (encodeAppendix 1 1 2 1 3 % 256 = 1 ∧
     encodeAppendix 1 1 2 1 3 / 256 % 2 = 1 ∧
     encodeAppendix 1 1 2 1 3 / 512 % 4 = 2 ∧
     encodeAppendix 1 1 2 1 3 / 2048 % 2 = 1 ∧
     encodeAppendix 1 1 2 1 3 / 4096 % 4 = 3 ∧
     encodeAppendix 1 1 2 1 3 / 16384 = 0) :=
  ⟨by decide, by decide, by decide, by decide, by decide,
   appendix_bit_layout 1 1 2 1 3 (by decide) (by decide) (by decide)
     (by decide) (by decide)⟩

/-- C6: in every built order, post-only forces the encoded orderType
bits (9..10) to 3 regardless of timeInForce; without post-only they
are 1 for IOC, 2 for FOK, and 0 for anything else. -/
theorem post_only_forces_order_type (t : ℤ) (sender : String) (pid : ℤ)
    (price size : ℚ) (side : OrderSide) (ro : Bool) (tif : String) :
    (place_limit_order_request t sender pid price size side ro true
        tif).order.appendix / 512 % 4 = 3 ∧
    (place_limit_order_request t sender pid price size side ro false
        tif).order.appendix / 512 % 4 =
      (if tif = "IOC" then 1 else if tif = "FOK" then 2 else 0) := by
  have hot : ∀ po : Bool,
      (place_limit_order_request t sender pid price size side ro po
        tif).order.appendix / 512 % 4 = orderTypeOf po tif := by
    intro po
    show encodeAppendix 1 0 (orderTypeOf po tif) (if ro then 1 else 0) 0
        / 512 % 4 = orderTypeOf po tif
    rw [encodeAppendix_eq_sum 1 0 _ _ 0 (by norm_num) (by norm_num)
      (orderTypeOf_lt po tif) (reduceOnlyBit_lt ro) (by norm_num)]
    have h1 := orderTypeOf_lt po tif
    have h2 := reduceOnlyBit_lt ro
    omega
  refine ⟨?_, ?_⟩
  · rw [hot true]
    simp [orderTypeOf]
  · rw [hot false]
    simp [orderTypeOf]

/-- C10: every order this program submits has version 1, cross margin
and no trigger: the appendix's low byte is 1, bit 8 is zero and all
bits from 12 up are zero, whatever the flags and timeInForce are. -/
theorem appendix_invariant (t : ℤ) (sender : String) (pid : ℤ)
    (price size : ℚ) (side : OrderSide) (ro po : Bool) (tif : String) :
    (place_limit_order_request t sender pid price size side ro po
        tif).order.appendix % 256 = 1 ∧
    (place_limit_order_request t sender pid price size side ro po
        tif).order.appendix / 256 % 2 = 0 ∧
    (place_limit_order_request t sender pid price size side ro po
        tif).order.appendix / 4096 = 0 := by
  have h : (place_limit_order_request t sender pid price size side ro po
      tif).order.appendix =
      encodeAppendix 1 0 (orderTypeOf po tif) (if ro then 1 else 0) 0 := rfl
  rw [h, encodeAppendix_eq_sum 1 0 _ _ 0 (by norm_num) (by norm_num)
    (orderTypeOf_lt po tif) (reduceOnlyBit_lt ro) (by norm_num)]
  have h1 := orderTypeOf_lt po tif
  have h2 := reduceOnlyBit_lt ro
  omega

/-- C8: a GTC order built at time T expires at T + 2592000 seconds and
an IOC or FOK order at T + 300 seconds. -/
theorem expiration_policy (t : ℤ) (sender : String) (pid : ℤ)
    (price size : ℚ) (side : OrderSide) (ro po : Bool) :
    (place_limit_order_request t sender pid price size side ro po
        "GTC").order.expiration = t + 2592000 ∧
    (place_limit_order_request t sender pid price size side ro po
        "IOC").order.expiration = t + 300 ∧
    (place_limit_order_request t sender pid price size side ro po
        "FOK").order.expiration = t + 300 := by
  refine ⟨?_, ?_, ?_⟩ <;> simp [place_limit_order_request, expirationOf]

/-- C7: the wire amount is the fixed-point encoding of the size for a
buy and of the negated size for a sell, and the buy and sell requests
agree on every other wire field (the wire order has no side field). -/
theorem amount_sign_convention (t : ℤ) (sender : String) (pid : ℤ)
    (price size : ℚ) (ro po : Bool) (tif : String) :
    (place_limit_order_request t sender pid price size OrderSide.BUY ro po
        tif).order.amount = to_x18 size ∧
    (place_limit_order_request t sender pid price size OrderSide.SELL ro po
        tif).order.amount = to_x18 (-size) ∧
    (place_limit_order_request t sender pid price size OrderSide.BUY ro po
        tif).product_id =
      (place_limit_order_request t sender pid price size OrderSide.SELL ro po
        tif).product_id ∧
    (place_limit_order_request t sender pid price size OrderSide.BUY ro po
        tif).order.sender =
      (place_limit_order_request t sender pid price size OrderSide.SELL ro po
        tif).order.sender ∧
    (place_limit_order_request t sender pid price size OrderSide.BUY ro po
        tif).order.priceX18 =
      (place_limit_order_request t sender pid price size OrderSide.SELL ro po
        tif).order.priceX18 ∧
    (place_limit_order_request t sender pid price size OrderSide.BUY ro po
        tif).order.expiration =
      (place_limit_order_request t sender pid price size OrderSide.SELL ro po
        tif).order.expiration ∧
    (place_limit_order_request t sender pid price size OrderSide.BUY ro po
        tif).order.nonce =
      (place_limit_order_request t sender pid price size OrderSide.SELL ro po
        tif).order.nonce ∧
    (place_limit_order_request t sender pid price size OrderSide.BUY ro po
        tif).order.appendix =
      (place_limit_order_request t sender pid price size OrderSide.SELL ro po
        tif).order.appendix :=
  ⟨rfl, rfl, rfl, rfl, rfl, rfl, rfl, rfl⟩

/-- C9: the caller-supplied size's sign is discarded by the absolute
value in buy underscore limit and sell underscore limit: any size s
builds exactly the order request that its absolute value builds. -/
theorem size_sign_discarded (t : ℤ) (sender : String) (pid : ℤ)
    (price s : ℚ) (ro po : Bool) (tif : String) :
    buy_limit_request t sender pid price s ro po tif =
      buy_limit_request t sender pid price |s| ro po tif ∧
    sell_limit_request t sender pid price s ro po tif =
      sell_limit_request t sender pid price |s| ro po tif := by
  constructor <;> simp [buy_limit_request, sell_limit_request, abs_abs]

/-- Unfolding equation of the lookup on a nonempty list. -/
theorem lookupPending_cons (k' : String) (v' : PendingOrder)
    (tl : List (String × PendingOrder)) (k : String) :
    lookupPending ((k', v') :: tl) k =
      if k' = k then some v' else lookupPending tl k := rfl

/-- Erasing one key does not change the lookup of any other key. -/
theorem lookupPending_erase_ne (d k : String) (h : k ≠ d) :
    ∀ m : List (String × PendingOrder),
      lookupPending (erasePending m d) k = lookupPending m k
  | [] => rfl
  | (k', v') :: tl => by
      unfold erasePending
      by_cases hk : k' = d
      · rw [if_pos hk, lookupPending_erase_ne d k h tl, lookupPending_cons,
          if_neg (fun hh : k' = k => h (hh ▸ hk))]
      · rw [if_neg hk, lookupPending_cons, lookupPending_cons]
        by_cases hk2 : k' = k
        · rw [if_pos hk2, if_pos hk2]
        · rw [if_neg hk2, if_neg hk2, lookupPending_erase_ne d k h tl]

/-- Lookup of the just-assigned key returns the new value. -/
theorem lookupPending_insert_self (m : List (String × PendingOrder))
    (d : String) (v : PendingOrder) :
    lookupPending (insertPending m d v) d = some v := by
  unfold insertPending
  rw [lookupPending_cons, if_pos rfl]

/-- Lookup of any other key is unchanged by an assignment. -/
theorem lookupPending_insert_ne (m : List (String × PendingOrder))
    (d : String) (v : PendingOrder) (k : String) (h : k ≠ d) :
    lookupPending (insertPending m d v) k = lookupPending m k := by
  unfold insertPending
  rw [lookupPending_cons, if_neg (fun hh => h hh.symm)]
  exact lookupPending_erase_ne d k h m

/-- C4: the pending-order cache is mutated only after a successful
collaborator response: a raised place-order call leaves the cache
unchanged, and a successful one binds exactly the response digest to
the new pending record, leaving every other key's binding unchanged. -/
theorem cache_updated_only_on_success (pending : List (String × PendingOrder))
    (resp : Except String PlaceResult) (pid : ℤ) (price size : ℚ)
    (side : OrderSide) (tNow : ℚ) :
    (∀ e, resp = Except.error e →
      place_order_update pending resp pid price size side tNow = pending) ∧
    (∀ r, resp = Except.ok r →
      lookupPending (place_order_update pending resp pid price size side tNow)
          (responseDigest r) =
        some (pendingRecordOf pid price size side tNow (responseDigest r)) ∧
      ∀ k, k ≠ responseDigest r →
        lookupPending (place_order_update pending resp pid price size side tNow) k =
          lookupPending pending k) := by
  refine ⟨?_, ?_⟩
  · rintro e rfl
    rfl
  · rintro r rfl
    exact ⟨lookupPending_insert_self _ _ _,
      fun k hk => lookupPending_insert_ne _ _ _ _ hk⟩

/-- Witness for C4: a raised call leaves an empty cache empty, and a
successful call with digest d makes d's record retrievable. -/
theorem cache_updated_only_on_success_witness :
    place_order_update [] (Except.error "boom") 2 10 1 OrderSide.BUY 0 = [] ∧
    lookupPending
        (place_order_update []
          (Except.ok { data := some { digest := "d" }, status := "ok" })
          2 10 1 OrderSide.BUY 0) "d" =
      some (pendingRecordOf 2 10 1 OrderSide.BUY 0 "d") :=
  ⟨(cache_updated_only_on_success [] (Except.error "boom") 2 10 1
      OrderSide.BUY 0).1 "boom" rfl,
   ((cache_updated_only_on_success []
      (Except.ok { data := some { digest := "d" }, status := "ok" }) 2 10 1
      OrderSide.BUY 0).2 { data := some { digest := "d" }, status := "ok" }
      rfl).1⟩

/-- A pending record the cache holds while no authoritative order is
returned; used to exhibit that the open-orders view drops it. -/
def examplePending : PendingOrder :=
  { digest := "d1", product_id := 2, price := 10, amount := 1, filled := 0,
    side := "buy", timestamp := 0, localFlag := true }

/-- C1 counterexample: with the cache holding a pending record whose
digest d1 is absent from the authoritative result, the open-orders
view is empty — the local record is not included, contrary to the
claimed merge rule. -/
theorem pending_not_in_open_orders_view :
    lookupPending [("d1", examplePending)] "d1" = some examplePending ∧
    get_open_orders [("d1", examplePending)] [] = [] := by
  constructor
  · rw [lookupPending_cons, if_pos rfl]
  · rfl

/-- C1 amended: the open-orders view never consults the pending cache:
it is the same for any cache contents, and its elements are exactly
the parsed authoritative records (hence no duplicate can arise, but a
pending record not yet indexed is simply invisible). -/
theorem open_orders_from_engine_only
    (pending pending' : List (String × PendingOrder))
    (auth : List EngineOrder) :
    get_open_orders pending auth = get_open_orders pending' auth ∧
    ∀ v : OpenOrderView,
      v ∈ get_open_orders pending auth ↔ ∃ o ∈ auth, parseEngineOrder o = v := by
  refine ⟨rfl, fun v => ?_⟩
  simp [get_open_orders]

/-- C2 counterexample: with the client connected, a request with
non-positive size (0, and also negative) and negative price is still
built and handed to the collaborator place-order call — no
ValidationError path exists in the code. -/
theorem nonpositive_size_still_submitted :
    (place_limit_order_attempt true 0 "sender" 2 (-5) 0 OrderSide.BUY false
      false "GTC").isSome = true ∧
    (place_limit_order_attempt true 0 "sender" 2 (-5) (-1) OrderSide.SELL false
      false "GTC").isSome = true :=
  ⟨rfl, rfl⟩

/-- C2 amended: order placement performs no local parameter
validation: for every price and size, including zero and negative
ones, the connected path always builds the wire request and attempts
the collaborator call; only the not-connected guard stops a call, with
a connection error rather than a validation error. -/
theorem order_placement_unvalidated (t : ℤ) (sender : String) (pid : ℤ)
    (price size : ℚ) (side : OrderSide) (ro po : Bool) (tif : String) :
    place_limit_order_attempt true t sender pid price size side ro po tif =
      some (place_limit_order_request t sender pid price size side ro po tif) ∧
    place_limit_order_attempt false t sender pid price size side ro po tif =
      none :=
  ⟨rfl, rfl⟩

/-- A resolved price of some value implies the product is in the perp
cache. -/
theorem mem_of_currentPriceOf_some (perp : List PerpProduct) (pid : ℤ)
    (p : ℚ) (h : currentPriceOf perp pid = some p) :
    pid ∈ perp.map (·.product_id) := by
  unfold currentPriceOf at h
  cases hf : perp.find? (fun q => q.product_id = pid) with
  | none =>
      rw [hf] at h
      exact absurd h (by simp)
  | some q =>
      have hq : q ∈ perp := List.mem_of_find?_eq_some hf
      have hpq := List.find?_some hf
      simp only [decide_eq_true_eq] at hpq
      exact List.mem_map.mpr ⟨q, hq, hpq⟩

/-- A resolved price of exactly 0 zeroes the PnL, whatever the other
fields are (Python truthiness of the price guard). -/
theorem pnl_of_some_zero (perp : List PerpProduct) (b : Balance)
    (hp : currentPriceOf perp b.product_id = some 0) :
    unrealizedPnlOf perp b = 0 := by
  unfold unrealizedPnlOf
  rw [hp]
  simp

/-- C3 amended: the unrealized PnL equals
amount * currentPrice + virtualQuoteBalance when the amount is
nonzero and the resolved current price is known and nonzero; it is 0
when the amount is 0, when no price resolves (in particular for any
product outside the perp cache), and also when the resolved price is
exactly 0 — a known zero price is treated as unknown. -/
theorem pnl_formula (perp : List PerpProduct) (b : Balance) (p : ℚ) :
    (balanceAmount b ≠ 0 → currentPriceOf perp b.product_id = some p →
      p ≠ 0 →
      unrealizedPnlOf perp b = balanceAmount b * p + from_x18 b.vQuoteX18) ∧
    (balanceAmount b = 0 → unrealizedPnlOf perp b = 0) ∧
    (currentPriceOf perp b.product_id = none → unrealizedPnlOf perp b = 0) ∧
    (currentPriceOf perp b.product_id = some 0 → unrealizedPnlOf perp b = 0) := by
  refine ⟨?_, ?_, ?_, ?_⟩
  · intro ha hp hp0
    unfold unrealizedPnlOf
    rw [if_pos ⟨ha, mem_of_currentPriceOf_some perp b.product_id p hp⟩, hp]
    simp [hp0]
  · intro ha
    unfold unrealizedPnlOf
    rw [if_neg (fun hc => hc.1 ha)]
  · intro hp
    unfold unrealizedPnlOf
    rw [hp]
    simp
  · exact pnl_of_some_zero perp b

/-- The perp cache used by the PnL witness: product 2 priced at 100. -/
def examplePerp : List PerpProduct :=
  [{ product_id := 2, riskPriceX18 := some (100 * 10 ^ 18),
     oraclePriceX18 := none }]

/-- The balance used by the PnL witness: amount 2, virtual quote
balance -150 (the spec's own test vector). -/
def exampleBalance : Balance :=
  { product_id := 2, amountX18 := 2 * 10 ^ 18,
    vQuoteX18 := -(150 * 10 ^ 18) }

/-- Witness for C3 amended at the spec's test vector: amount 2, price
100, virtual quote -150 gives PnL 50. -/
theorem pnl_formula_witness :
    balanceAmount exampleBalance ≠ 0 ∧
    currentPriceOf examplePerp exampleBalance.product_id = some 100 ∧
    unrealizedPnlOf examplePerp exampleBalance = 50 := by
  have h1 : balanceAmount exampleBalance = 2 := by
    norm_num [balanceAmount, exampleBalance, from_x18]
  have h2 : currentPriceOf examplePerp exampleBalance.product_id = some 100 := by
    norm_num [currentPriceOf, examplePerp, exampleBalance, from_x18, List.find?]
  refine ⟨by rw [h1]; norm_num, h2, ?_⟩
  rw [(pnl_formula examplePerp exampleBalance 100).1
    (by rw [h1]; norm_num) h2 (by norm_num), h1]
  norm_num [exampleBalance, from_x18]

/-- The perp cache for the C3 counterexample: product 2 carries a
known price of exactly 0. -/
def examplePerpZero : List PerpProduct :=
  [{ product_id := 2, riskPriceX18 := some 0, oraclePriceX18 := none }]

/-- The balance for the C3 counterexample: amount 1, virtual quote 5. -/
def exampleBalanceOne : Balance :=
  { product_id := 2, amountX18 := 10 ^ 18, vQuoteX18 := 5 * 10 ^ 18 }

/-- C3 counterexample: with a known current price of 0 and a nonzero
amount, the code computes PnL 0, not the claimed
amount * currentPrice + virtualQuoteBalance, which is 5 here. -/
theorem pnl_zero_price_counterexample :
    currentPriceOf examplePerpZero exampleBalanceOne.product_id = some 0 ∧
    balanceAmount exampleBalanceOne ≠ 0 ∧
    unrealizedPnlOf examplePerpZero exampleBalanceOne ≠
      balanceAmount exampleBalanceOne * 0 +
        from_x18 exampleBalanceOne.vQuoteX18 := by
  have h0 : currentPriceOf examplePerpZero exampleBalanceOne.product_id =
      some 0 := by
    norm_num [currentPriceOf, examplePerpZero, exampleBalanceOne, from_x18,
      List.find?]
  have h1 : balanceAmount exampleBalanceOne = 1 := by
    norm_num [balanceAmount, exampleBalanceOne, from_x18]
  have h2 : unrealizedPnlOf examplePerpZero exampleBalanceOne = 0 :=
    pnl_of_some_zero examplePerpZero exampleBalanceOne h0
  refine ⟨h0, by rw [h1]; norm_num, ?_⟩
  rw [h2, h1]
  norm_num [exampleBalanceOne, from_x18]
